import Mathlib

/-!
Verification of the model-output contract layer of the Ai_debug_colpilot_backend
repository (files `app/services/debug_service.py`, `app/ollama_client.py`,
`app/prompt.py`, `app/schemas.py`).

Modelling conventions:
* Python strings are Lean `String`s; character-level reasoning uses `List Char`.
* JSON values produced by `json.loads` are modelled by the inductive `JsonValue`;
  JSON numbers are modelled as integers (the claims under study never depend on
  floating-point payloads).
* Python dicts (as produced by `json.loads`, hence with pairwise distinct keys)
  are modelled as ordered association lists; `dictGet` finds the first binding
  and `dictSet` replaces the first binding in place, preserving insertion order.
* Exceptions are modelled with `Except` / explicit error components.
-/

/-- JSON value as produced by `json.loads` (numbers restricted to integers). -/
inductive JsonValue where
  | null
  | bool (b : Bool)
  | num (n : Int)
  | str (s : String)
  | arr (xs : List JsonValue)
  | obj (fs : List (String × JsonValue))
deriving BEq

/-- Ordered association list modelling a Python dict. -/
abbrev JObj := List (String × JsonValue)

/-- First binding of key `k`, modelling Python dict lookup `d[k]`. -/
def dictGet (fs : JObj) (k : String) : Option JsonValue :=
  match fs with
  | [] => none
  | (k', v) :: rest => if k' = k then some v else dictGet rest k

/-- Key membership test, modelling Python `k in d` for a dict. -/
def containsKey (fs : JObj) (k : String) : Bool :=
  match fs with
  | [] => false
  | (k', _) :: rest => if k' = k then true else containsKey rest k

/-- Replace the first binding of `k` (or append one), modelling `d[k] = v`. -/
def dictSet (fs : JObj) (k : String) (v : JsonValue) : JObj :=
  match fs with
  | [] => [(k, v)]
  | (k', v') :: rest =>
      if k' = k then (k', v) :: rest else (k', v') :: dictSet rest k v

/-- Key sequence of an association list. -/
def keysOf (fs : JObj) : List String := fs.map Prod.fst

/-- Key sequence of a JSON value when it is an object, else empty. -/
def keysOfV : JsonValue → List String
  | .obj fs => keysOf fs
  | _ => []

/-- Double-quote character. -/
def dqChar : Char := Char.ofNat 34

/-- Single-quote character. -/
def sqChar : Char := Char.ofNat 39

/-- Backslash character. -/
def bsChar : Char := Char.ofNat 92

/-- Backtick character. -/
def btChar : Char := Char.ofNat 96

/-- Opening curly-brace character. -/
def lbChar : Char := Char.ofNat 123

/-- Closing curly-brace character. -/
def rbChar : Char := Char.ofNat 125

/-- Newline character. -/
def nlChar : Char := Char.ofNat 10

/-- Carriage-return character. -/
def crChar : Char := Char.ofNat 13

/-- Tab character. -/
def tabChar : Char := Char.ofNat 9

/-- Whitespace as matched by the regex class backslash-s (ASCII range). -/
def pyIsSpace (c : Char) : Bool :=
  c = ' ' || c = tabChar || c = nlChar || c = crChar ||
    c = Char.ofNat 11 || c = Char.ofNat 12

/-- Escape one character for Python `repr` of a string with quote char `q`. -/
def pyReprEsc (q c : Char) : String :=
  if c = bsChar then String.mk [bsChar, bsChar]
  else if c = q then String.mk [bsChar, q]
  else if c = nlChar then String.mk [bsChar, 'n']
  else if c = crChar then String.mk [bsChar, 'r']
  else if c = tabChar then String.mk [bsChar, 't']
  else String.singleton c

/-- Python `repr` of a string: single quotes unless the text holds a single
quote and no double quote, in which case double quotes are used. -/
def pyReprStr (s : String) : String :=
  let q := if s.data.contains sqChar && !(s.data.contains dqChar)
           then dqChar else sqChar
  String.singleton q ++ String.join (s.data.map (pyReprEsc q)) ++ String.singleton q

mutual

/-- Python `repr` of a JSON value (model; dicts print with braces and
single-quoted keys, as CPython does). -/
def pyRepr : JsonValue → String
  | .null => "None"
  | .bool true => "True"
  | .bool false => "False"
  | .num n => toString n
  | .str s => pyReprStr s
  | .arr xs => "[" ++ String.intercalate ", " (pyReprList xs) ++ "]"
  | .obj fs =>
      String.singleton lbChar ++ String.intercalate ", " (pyReprFields fs) ++
        String.singleton rbChar

/-- Element-wise `repr` over a list of JSON values. -/
def pyReprList : List JsonValue → List String
  | [] => []
  | x :: xs => pyRepr x :: pyReprList xs

/-- Binding-wise `repr` over dict entries. -/
def pyReprFields : List (String × JsonValue) → List String
  | [] => []
  | (k, v) :: fs => (pyReprStr k ++ ": " ++ pyRepr v) :: pyReprFields fs

end

/-- Python `str` of a JSON value: strings pass through, scalars print their
canonical form, containers fall back to `repr`. -/
def pyStr : JsonValue → String
  | .str s => s
  | .null => "None"
  | .bool true => "True"
  | .bool false => "False"
  | .num n => toString n
  | .arr xs => pyRepr (.arr xs)
  | .obj fs => pyRepr (.obj fs)

/-- Two-digit lowercase hex rendering of a small code point. -/
def hexDigit (n : Nat) : Char :=
  if n < 10 then Char.ofNat (48 + n) else Char.ofNat (87 + n)

/-- Escape one character for `json.dumps` with `ensure_ascii=False`. -/
def jsonEsc (c : Char) : String :=
  if c = dqChar then String.mk [bsChar, dqChar]
  else if c = bsChar then String.mk [bsChar, bsChar]
  else if c = nlChar then String.mk [bsChar, 'n']
  else if c = crChar then String.mk [bsChar, 'r']
  else if c = tabChar then String.mk [bsChar, 't']
  else if c = Char.ofNat 8 then String.mk [bsChar, 'b']
  else if c = Char.ofNat 12 then String.mk [bsChar, 'f']
  else if c.toNat < 32 then
    String.mk [bsChar, 'u', '0', '0', hexDigit (c.toNat / 16), hexDigit (c.toNat % 16)]
  else String.singleton c

/-- JSON string literal as produced by `json.dumps(..., ensure_ascii=False)`. -/
def jsonQuote (s : String) : String :=
  String.singleton dqChar ++ String.join (s.data.map jsonEsc) ++ String.singleton dqChar

mutual

/-- Serialization as by `json.dumps(value, ensure_ascii=False)` with the
default single-line separators. -/
def jsonDumps : JsonValue → String
  | .null => "null"
  | .bool true => "true"
  | .bool false => "false"
  | .num n => toString n
  | .str s => jsonQuote s
  | .arr xs => "[" ++ String.intercalate ", " (jsonDumpsList xs) ++ "]"
  | .obj fs =>
      String.singleton lbChar ++ String.intercalate ", " (jsonDumpsFields fs) ++
        String.singleton rbChar

/-- Element-wise serialization of an array body. -/
def jsonDumpsList : List JsonValue → List String
  | [] => []
  | x :: xs => jsonDumps x :: jsonDumpsList xs

/-- Binding-wise serialization of an object body. -/
def jsonDumpsFields : List (String × JsonValue) → List String
  | [] => []
  | (k, v) :: fs => (jsonQuote k ++ ": " ++ jsonDumps v) :: jsonDumpsFields fs

end

/-- Substring test on character lists, modelling Python `needle in hay`. -/
def subListIn (hay needle : List Char) : Bool :=
  (List.range (hay.length + 1)).any
    (fun i => ((hay.drop i).take needle.length) == needle)

/-- The preference keys scanned by `_list_to_str_list` for dict elements,
in source order. -/
def prefKeys : List String := ["cause", "suggestion", "advice"]

/-- The dict branch of the element loop of `_list_to_str_list`: take the
first key of `prefKeys` bound to a string, else `json.dumps` of the dict. -/
def coerceElem : JsonValue → String
  | .str s => s
  | .obj fs =>
      match prefKeys.findSome?
        (fun k => match dictGet fs k with
          | some (.str s) => some s
          | _ => none) with
      | some s => s
      | none => jsonDumps (.obj fs)
  | v => pyStr v

/-- Embedding of `_list_to_str_list` from `app/services/debug_service.py`:
`None` gives the empty list, a non-list gives the singleton of its `str`
form, and a list is coerced element-wise by `coerceElem`. -/
def listToStrList : JsonValue → List String
  | .null => []
  | .arr xs => xs.map coerceElem
  | v => [pyStr v]

/-- Exceptions that `_validate_schema` can raise: its own
`SchemaValidationError` (carrying the message) or a `TypeError` coming from
applying dict operations to a non-dict value. -/
inductive PyExc where
  | schemaErr (msg : String)
  | typeErr
deriving DecidableEq

/-- Python membership `key in value` for a parsed JSON value: dicts test
keys, lists test elements, strings test substrings, scalars raise
`TypeError` (not iterable). -/
def pyContains (v : JsonValue) (k : String) : Except PyExc Bool :=
  match v with
  | .obj fs => .ok (containsKey fs k)
  | .arr xs => .ok (xs.contains (.str k))
  | .str s => .ok (subListIn s.data k.data)
  | _ => .error .typeErr

/-- The required keys of `_validate_schema`, in source order. -/
def requiredKeys : List String := ["error_type", "root_cause", "fix_suggestions", "prevention"]

/-- The presence-check loop of `_validate_schema`: first failing membership
test raises, in order. -/
def checkRequired (v : JsonValue) : List String → Option PyExc
  | [] => none
  | k :: ks =>
      match pyContains v k with
      | .error e => some e
      | .ok false => some (.schemaErr ("Missing field: " ++ k))
      | .ok true => checkRequired v ks

/-- The four in-place reassignments of `_validate_schema`, in source order;
each right-hand side reads the dict as already updated by the previous
assignments. -/
def validatedObj (fs : JObj) : JObj :=
  let o1 := dictSet fs "error_type"
    (.str (pyStr ((dictGet fs "error_type").getD .null)))
  let o2 := dictSet o1 "root_cause"
    (.arr ((listToStrList ((dictGet o1 "root_cause").getD .null)).map .str))
  let o3 := dictSet o2 "fix_suggestions"
    (.arr ((listToStrList ((dictGet o2 "fix_suggestions").getD .null)).map .str))
  dictSet o3 "prevention"
    (.arr ((listToStrList ((dictGet o3 "prevention").getD .null)).map .str))

/-- Embedding of `_validate_schema`, threading the (possibly mutated) object
through together with the exception raised, if any. The presence loop runs
first; only then are the four fields reassigned in order. Reading or
assigning a string-keyed item of a non-dict raises `TypeError`. -/
def validateSchemaRun (v : JsonValue) : JsonValue × Option PyExc :=
  match checkRequired v requiredKeys with
  | some e => (v, some e)
  | none =>
      match v with
      | .obj fs => (.obj (validatedObj fs), none)
      | other => (other, some .typeErr)

/-- Drop trailing characters satisfying `p`. -/
def dropTrail (p : Char → Bool) (l : List Char) : List Char :=
  (l.reverse.dropWhile p).reverse

/-- Python `str.strip()` on a character list (ASCII whitespace model). -/
def pyStrip (l : List Char) : List Char :=
  dropTrail pyIsSpace (l.dropWhile pyIsSpace)

/-- Three backticks, the fence delimiter. -/
def fenceChars : List Char := [btChar, btChar, btChar]

/-- The anchored substitution `re.sub(r"^...(?:json)?\s*", "", text, IGNORECASE)`
of `_strip_code_fences` (the pattern's literal head is the triple backtick):
if the text starts with the fence, drop it, drop a case-insensitive `json`
tag when present, then drop the following whitespace run. -/
def stripLeadFence (l : List Char) : List Char :=
  if l.take 3 = fenceChars then
    (if ((l.drop 3).take 4).map Char.toLower = ['j', 's', 'o', 'n']
     then (l.drop 3).drop 4 else l.drop 3).dropWhile pyIsSpace
  else l

/-- The anchored substitution `re.sub(r"\s*...$", "", text)` (the pattern's
literal tail is the triple backtick) of `_strip_code_fences`: if the text
ends with the fence, drop it and the whitespace run before it. The input at
this point has been stripped, so the dollar anchor is plain end-of-text. -/
def stripTrailFence (l : List Char) : List Char :=
  if l.reverse.take 3 = fenceChars then
    ((l.reverse.drop 3).dropWhile pyIsSpace).reverse
  else l

/-- Embedding of `_strip_code_fences` from `app/services/debug_service.py`. -/
def stripCodeFences (l : List Char) : List Char :=
  pyStrip (stripTrailFence (stripLeadFence (pyStrip l)))

/-- Whitespace skipped by the strict JSON lexer (space, tab, newline, CR). -/
def jsonIsWs (c : Char) : Bool :=
  c = ' ' || c = tabChar || c = nlChar || c = crChar

/-- Decimal digit test. -/
def isDigitCh (c : Char) : Bool := 48 ≤ c.toNat && c.toNat ≤ 57

/-- Hex digit value of a character, if any. -/
def hexVal (c : Char) : Option Nat :=
  if 48 ≤ c.toNat && c.toNat ≤ 57 then some (c.toNat - 48)
  else if 97 ≤ c.toNat && c.toNat ≤ 102 then some (c.toNat - 87)
  else if 65 ≤ c.toNat && c.toNat ≤ 70 then some (c.toNat - 55)
  else none

/-- Body of a JSON string literal (opening quote already consumed), with the
escape sequences of the JSON grammar. Control characters are rejected, as
`json.loads` does in strict mode. -/
def parseStrBody (l : List Char) (acc : List Char) : Option (String × List Char) :=
  match l with
  | [] => none
  | c :: rest =>
      if c = dqChar then some (String.mk acc.reverse, rest)
      else if c = bsChar then
        match rest with
        | [] => none
        | e :: rest2 =>
            if e = dqChar then parseStrBody rest2 (dqChar :: acc)
            else if e = bsChar then parseStrBody rest2 (bsChar :: acc)
            else if e = '/' then parseStrBody rest2 ('/' :: acc)
            else if e = 'n' then parseStrBody rest2 (nlChar :: acc)
            else if e = 't' then parseStrBody rest2 (tabChar :: acc)
            else if e = 'r' then parseStrBody rest2 (crChar :: acc)
            else if e = 'b' then parseStrBody rest2 (Char.ofNat 8 :: acc)
            else if e = 'f' then parseStrBody rest2 (Char.ofNat 12 :: acc)
            else if e = 'u' then
              match rest2 with
              | h1 :: h2 :: h3 :: h4 :: rest6 =>
                  match hexVal h1, hexVal h2, hexVal h3, hexVal h4 with
                  | some a, some b, some c', some d =>
                      parseStrBody rest6
                        (Char.ofNat (((a * 16 + b) * 16 + c') * 16 + d) :: acc)
                  | _, _, _, _ => none
              | _ => none
            else none
      else if c.toNat < 32 then none
      else parseStrBody rest (c :: acc)

/-- Value of a decimal digit run. -/
def digitsToNat (l : List Char) : Nat :=
  l.foldl (fun a c => a * 10 + (c.toNat - 48)) 0

/-- Integer literal: optional minus then a nonempty digit run. A following
dot or exponent marks a float, which this model does not cover, so it is
rejected (the claims under study never involve float payloads). -/
def parseIntLit (l : List Char) : Option (Int × List Char) :=
  let (neg, l1) := match l with
    | c :: rest => if c = '-' then (true, rest) else (false, l)
    | [] => (false, l)
  let digits := l1.takeWhile isDigitCh
  let rest := l1.dropWhile isDigitCh
  if digits = [] then none
  else
    match rest with
    | c :: _ => if c = '.' || c = 'e' || c = 'E' then none else
        some (if neg then -(Int.ofNat (digitsToNat digits)) else Int.ofNat (digitsToNat digits), rest)
    | [] => some (if neg then -(Int.ofNat (digitsToNat digits)) else Int.ofNat (digitsToNat digits), rest)

mutual

/-- Recursive-descent JSON value parser (fuel-indexed; fuel bounds the
nesting depth and is chosen larger than the input length at top level). -/
def parseVal (fuel : Nat) (l : List Char) : Option (JsonValue × List Char) :=
  match fuel with
  | 0 => none
  | fuel + 1 =>
      let l := l.dropWhile jsonIsWs
      match l with
      | [] => none
      | c :: rest =>
          if c = 'n' then
            match rest with
            | 'u' :: 'l' :: 'l' :: r => some (.null, r)
            | _ => none
          else if c = 't' then
            match rest with
            | 'r' :: 'u' :: 'e' :: r => some (.bool true, r)
            | _ => none
          else if c = 'f' then
            match rest with
            | 'a' :: 'l' :: 's' :: 'e' :: r => some (.bool false, r)
            | _ => none
          else if c = dqChar then
            match parseStrBody rest [] with
            | some (s, r) => some (.str s, r)
            | none => none
          else if c = '[' then
            let r1 := rest.dropWhile jsonIsWs
            match r1 with
            | ']' :: r2 => some (.arr [], r2)
            | _ =>
                match parseArrItems fuel rest with
                | some (xs, r) => some (.arr xs, r)
                | none => none
          else if c = lbChar then
            let r1 := rest.dropWhile jsonIsWs
            match r1 with
            | c2 :: r2 => if c2 = rbChar then some (.obj [], r2) else
                match parseObjItems fuel rest with
                | some (fs, r) => some (.obj fs, r)
                | none => none
            | [] => none
          else
            match parseIntLit (c :: rest) with
            | some (n, r) => some (.num n, r)
            | none => none

/-- One or more comma-separated array items followed by a closing bracket. -/
def parseArrItems (fuel : Nat) (l : List Char) : Option (List JsonValue × List Char) :=
  match fuel with
  | 0 => none
  | fuel + 1 =>
      match parseVal fuel l with
      | none => none
      | some (v, r) =>
          let r1 := r.dropWhile jsonIsWs
          match r1 with
          | ',' :: r2 =>
              match parseArrItems fuel r2 with
              | some (xs, r3) => some (v :: xs, r3)
              | none => none
          | ']' :: r2 => some ([v], r2)
          | _ => none

/-- One or more comma-separated object members followed by a closing brace. -/
def parseObjItems (fuel : Nat) (l : List Char) : Option (List (String × JsonValue) × List Char) :=
  match fuel with
  | 0 => none
  | fuel + 1 =>
      let l1 := l.dropWhile jsonIsWs
      match l1 with
      | c :: rest =>
          if c = dqChar then
            match parseStrBody rest [] with
            | none => none
            | some (k, r) =>
                let r1 := r.dropWhile jsonIsWs
                match r1 with
                | ':' :: r2 =>
                    match parseVal fuel r2 with
                    | none => none
                    | some (v, r3) =>
                        let r4 := r3.dropWhile jsonIsWs
                        match r4 with
                        | ',' :: r5 =>
                            match parseObjItems fuel r5 with
                            | some (fs, r6) => some ((k, v) :: fs, r6)
                            | none => none
                        | c2 :: r5 => if c2 = rbChar then some ([(k, v)], r5) else none
                        | [] => none
                | _ => none
          else none
      | [] => none

end

/-- Embedding of `json.loads` on the modelled JSON fragment: parse one value
and require only whitespace after it. -/
def jsonLoads (s : String) : Option JsonValue :=
  match parseVal (s.length + 1) s.data with
  | some (v, rest) => if rest.dropWhile jsonIsWs = [] then some v else none
  | none => none

/-- Failure kinds of `_parse_model_output`: `json.JSONDecodeError`,
`SchemaValidationError` (with message), or an uncaught `TypeError` from
`_validate_schema` applied to a non-dict scalar. -/
inductive ParseFail where
  | jsonErr
  | schemaMsg (msg : String)
  | typeErr
deriving DecidableEq

/-- Embedding of `_parse_model_output`: strip fences, `json.loads`, then
`_validate_schema` on the parsed value. -/
def parseModelOutput (raw : String) : Except ParseFail JsonValue :=
  match jsonLoads (String.mk (stripCodeFences raw.data)) with
  | none => .error .jsonErr
  | some v =>
      match validateSchemaRun v with
      | (_, some (.schemaErr m)) => .error (.schemaMsg m)
      | (_, some .typeErr) => .error .typeErr
      | (v', none) => .ok v'

/-- The corrective instruction `_run_llm` appends to the prompt before the
single retry (adjacent Python string literals concatenated). -/
def retryInstr : String :=
  String.mk [nlChar, nlChar] ++ "Your output did not meet the required format. " ++
    "Please output JSON only and include fields " ++
    "error_type/root_cause/fix_suggestions/prevention."

/-- Errors escaping `_run_llm`: a gateway failure (the `OllamaError` message)
or a parse/validation failure. -/
inductive RunFail where
  | gateway (msg : String)
  | parse (e : ParseFail)
deriving DecidableEq

/-- Embedding of `_run_llm`. The gateway is an oracle giving the outcome of
the n-th `call_ollama` invocation. The first call happens outside the `try`
block, so its failure propagates directly; a `JSONDecodeError` or
`SchemaValidationError` from the first parse triggers exactly one retry with
`retryInstr` appended; a `TypeError` is not caught. The first component
returned lists the prompts sent, in order. -/
def runLLM (gw : Nat → Except String String) (prompt : String) :
    List String × Except RunFail (JsonValue × String) :=
  match gw 0 with
  | .error e => ([prompt], .error (.gateway e))
  | .ok raw =>
      match parseModelOutput raw with
      | .ok obj => ([prompt], .ok (obj, raw))
      | .error .typeErr => ([prompt], .error (.parse .typeErr))
      | .error _ =>
          let rp := prompt ++ retryInstr
          match gw 1 with
          | .error e => ([prompt, rp], .error (.gateway e))
          | .ok rawRetry =>
              match parseModelOutput rawRetry with
              | .ok objRetry => ([prompt, rp], .ok (objRetry, rawRetry))
              | .error e2 => ([prompt, rp], .error (.parse e2))

/-- Process environment modelled as an ordered key/value list. -/
abbrev EnvMap := List (String × String)

/-- Model of `os.getenv(key, default)`. -/
def getenvD (env : EnvMap) (k d : String) : String :=
  match env.lookup k with
  | some v => v
  | none => d

/-- Configuration snapshot with the four module-level values of
`app/ollama_client.py`, each read by `os.getenv` with its literal default
when the module is imported: `OLLAMA_BASE_URL`, `OLLAMA_MODEL`,
`OLLAMA_MODE`, `OLLAMA_TIMEOUT` (timeout kept as its raw string). -/
structure StartupCfg where
  base : String
  model : String
  mode : String
  timeoutRaw : String
deriving DecidableEq

/-- The module-import-time resolution of the four constants. -/
def startupCfg (env : EnvMap) : StartupCfg :=
  { base := getenvD env "OLLAMA_BASE_URL" "http://localhost:11434"
  , model := getenvD env "OLLAMA_MODEL" "qwen2.5:7b-instruct"
  , mode := getenvD env "OLLAMA_MODE" "chat"
  , timeoutRaw := getenvD env "OLLAMA_TIMEOUT" "120" }

/-- The call-time `_cfg()` dictionary of `app/ollama_client.py` (note its
defaults differ from the module-level ones: 127.0.0.1 and empty model). -/
structure CallCfg where
  base : String
  model : String
  mode : String
deriving DecidableEq

/-- Model of `_cfg()`, reading the environment at call time. -/
def callCfg (env : EnvMap) : CallCfg :=
  { base := getenvD env "OLLAMA_BASE_URL" "http://127.0.0.1:11434"
  , model := getenvD env "OLLAMA_MODEL" ""
  , mode := getenvD env "OLLAMA_MODE" "chat" }

/-- The observable shape of the outbound HTTP request built by
`call_ollama`: target URL, model field, timeout, which wire mode was taken,
and the prompt carried. -/
structure OutboundRequest where
  url : String
  model : String
  timeoutRaw : String
  isGenerateMode : Bool
  prompt : String
deriving DecidableEq

/-- Embedding of the request construction of `call_ollama`: the branch is on
the module-level `OLLAMA_MODE`; the generate branch takes its base URL from
the call-time `_cfg()` dictionary while the chat branch uses the
module-level `OLLAMA_BASE_URL`; the model field and the client timeout come
from the module-level constants in both branches. `startupEnv` is the
environment at module import, `callEnv` the one at call time. -/
def outboundRequest (startupEnv callEnv : EnvMap) (prompt : String) : OutboundRequest :=
  let su := startupCfg startupEnv
  let c := callCfg callEnv
  if su.mode = "generate" then
    { url := c.base ++ "/api/generate", model := su.model,
      timeoutRaw := su.timeoutRaw, isGenerateMode := true, prompt := prompt }
  else
    { url := su.base ++ "/api/chat", model := su.model,
      timeoutRaw := su.timeoutRaw, isGenerateMode := false, prompt := prompt }

/-- HTTP response of the inference endpoint as observed by `call_ollama`:
status code, body text, and the JSON the body parses to (used only on
success paths). -/
structure HttpResponse where
  status : Nat
  text : String
  bodyJson : JsonValue

/-- Raw-text extraction of the chat branch:
`(data.get("message") or \x7b\x7d).get("content", "")` for a string-typed
content (absent or non-object message yields the empty string). -/
def extractChat (j : JsonValue) : String :=
  match j with
  | .obj fs =>
      match dictGet fs "message" with
      | some (.obj m) =>
          match dictGet m "content" with
          | some (.str s) => s
          | _ => ""
      | _ => ""
  | _ => ""

/-- Raw-text extraction of the generate branch: `data.get("response", "")`
for a string-typed response. -/
def extractGenerate (j : JsonValue) : String :=
  match j with
  | .obj fs =>
      match dictGet fs "response" with
      | some (.str s) => s
      | _ => ""
  | _ => ""

/-- Outcome of one `call_ollama` invocation on a given endpoint response:
any status of 400 or above raises `OllamaError` (message carrying the
status and body text); otherwise the mode-specific key is extracted,
defaulting to the empty string. The branch uses the module-level mode, as
in the source. -/
def callOllamaResult (startupEnv : EnvMap) (resp : HttpResponse) : Except String String :=
  let su := startupCfg startupEnv
  if su.mode = "generate" then
    if 400 ≤ resp.status then
      .error ("Ollama generate failed: " ++ toString resp.status ++ " " ++ resp.text)
    else .ok (extractGenerate resp.bodyJson)
  else
    if 400 ≤ resp.status then
      .error ("Ollama chat failed: " ++ toString resp.status ++ " " ++ resp.text)
    else .ok (extractChat resp.bodyJson)

/-- Names defined at module level by `app/prompt.py`. -/
def promptModuleNames : List String := ["PARSE_PROMPT_TEMPLATE", "DEBUG_PROMPT_TEMPLATE"]

/-- The name `app/services/debug_service.py` imports from `app/prompt.py`. -/
def debugServicePromptImport : String := "PROMPT_TEMPLATE"

/-- Fields declared by the `DebugRequest` schema in `app/schemas.py`. -/
def debugRequestFields : List String := ["raw_input", "parsed", "similar_bugs"]

/-- Request attributes `run_debug` reads off its `DebugRequest` argument. -/
def runDebugAccessedAttrs : List String := ["language", "errorText", "codeSnippet"]

/-- Keyword arguments `run_debug` passes to `PROMPT_TEMPLATE.format`. -/
def runDebugFormatKwargs : List String :=
  ["language", "similar_bugs", "error_text", "code_snippet"]

/-- Placeholders of `DEBUG_PROMPT_TEMPLATE`, the diagnosis template that
`app/prompt.py` actually defines. -/
def debugTemplatePlaceholders : List String :=
  ["raw_input", "language_guess", "top_error_line", "error_text",
   "stack_trace_lines_json", "code_blocks_json", "logs_json",
   "file_paths_json", "environment_hints_json", "user_intent", "similar_bugs"]

/-- String-typed JSON value test. -/
def isStrV : JsonValue → Bool
  | .str _ => true
  | _ => false

theorem dictGet_dictSet_self (fs : JObj) (k : String) (v : JsonValue) :
    dictGet (dictSet fs k v) k = some v := by
  induction fs with
  | nil => simp [dictSet, dictGet]
  | cons p rest ih =>
      obtain ⟨k0, v0⟩ := p
      by_cases h : k0 = k
      · simp [dictSet, dictGet, h]
      · simp [dictSet, dictGet, h, ih]

theorem dictGet_dictSet_ne (fs : JObj) (k k' : String) (v : JsonValue)
    (h : k ≠ k') : dictGet (dictSet fs k v) k' = dictGet fs k' := by
  induction fs with
  | nil => simp [dictSet, dictGet, h]
  | cons p rest ih =>
      obtain ⟨k0, v0⟩ := p
      by_cases h0 : k0 = k
      · subst h0
        simp [dictSet, dictGet, h]
      · simp [dictSet, dictGet, h0, ih]

theorem containsKey_dictSet_of (fs : JObj) (k k' : String) (v : JsonValue)
    (h : containsKey fs k = true) :
    containsKey (dictSet fs k v) k' = containsKey fs k' := by
  induction fs with
  | nil => simp [containsKey] at h
  | cons p rest ih =>
      obtain ⟨k0, v0⟩ := p
      by_cases h0 : k0 = k
      · simp [dictSet, containsKey, h0]
      · have h' : containsKey rest k = true := by
          simpa [containsKey, h0] using h
        simp [dictSet, containsKey, h0, ih h']

theorem keysOf_dictSet_of (fs : JObj) (k : String) (v : JsonValue)
    (h : containsKey fs k = true) :
    keysOf (dictSet fs k v) = keysOf fs := by
  induction fs with
  | nil => simp [containsKey] at h
  | cons p rest ih =>
      obtain ⟨k0, v0⟩ := p
      by_cases h0 : k0 = k
      · simp [dictSet, keysOf, h0]
      · have h' : containsKey rest k = true := by
          simpa [containsKey, h0] using h
        simpa [dictSet, keysOf, h0] using ih h'

theorem checkRequired_obj_all (fs : JObj)
    (h1 : containsKey fs "error_type" = true)
    (h2 : containsKey fs "root_cause" = true)
    (h3 : containsKey fs "fix_suggestions" = true)
    (h4 : containsKey fs "prevention" = true) :
    checkRequired (.obj fs) requiredKeys = none := by
  simp [requiredKeys, checkRequired, pyContains, h1, h2, h3, h4]

theorem keysOf_validatedObj (fs : JObj) (a b c d : JsonValue)
    (h1 : containsKey fs "error_type" = true)
    (h2 : containsKey fs "root_cause" = true)
    (h3 : containsKey fs "fix_suggestions" = true)
    (h4 : containsKey fs "prevention" = true) :
    keysOf (dictSet (dictSet (dictSet (dictSet fs "error_type" a)
      "root_cause" b) "fix_suggestions" c) "prevention" d) = keysOf fs := by
  have e1 : ∀ k', containsKey (dictSet fs "error_type" a) k' = containsKey fs k' :=
    fun k' => containsKey_dictSet_of fs _ k' a h1
  have e2 : ∀ k', containsKey (dictSet (dictSet fs "error_type" a) "root_cause" b) k'
      = containsKey fs k' := by
    intro k'
    rw [containsKey_dictSet_of _ _ _ _ (by rw [e1]; exact h2), e1]
  have e3 : ∀ k', containsKey (dictSet (dictSet (dictSet fs "error_type" a)
      "root_cause" b) "fix_suggestions" c) k' = containsKey fs k' := by
    intro k'
    rw [containsKey_dictSet_of _ _ _ _ (by rw [e2]; exact h3), e2]
  rw [keysOf_dictSet_of _ _ _ (by rw [e3]; exact h4),
      keysOf_dictSet_of _ _ _ (by rw [e2]; exact h3),
      keysOf_dictSet_of _ _ _ (by rw [e1]; exact h2),
      keysOf_dictSet_of _ _ _ h1]

theorem dictSet4_get_error_type (fs : JObj) (a b c d : JsonValue) :
    dictGet (dictSet (dictSet (dictSet (dictSet fs "error_type" a)
      "root_cause" b) "fix_suggestions" c) "prevention" d) "error_type" = some a := by
  rw [dictGet_dictSet_ne _ _ _ _ (by decide), dictGet_dictSet_ne _ _ _ _ (by decide),
      dictGet_dictSet_ne _ _ _ _ (by decide), dictGet_dictSet_self]

theorem dictSet4_get_root_cause (fs : JObj) (a b c d : JsonValue) :
    dictGet (dictSet (dictSet (dictSet (dictSet fs "error_type" a)
      "root_cause" b) "fix_suggestions" c) "prevention" d) "root_cause" = some b := by
  rw [dictGet_dictSet_ne _ _ _ _ (by decide), dictGet_dictSet_ne _ _ _ _ (by decide),
      dictGet_dictSet_self]

theorem dictSet4_get_fix (fs : JObj) (a b c d : JsonValue) :
    dictGet (dictSet (dictSet (dictSet (dictSet fs "error_type" a)
      "root_cause" b) "fix_suggestions" c) "prevention" d) "fix_suggestions" = some c := by
  rw [dictGet_dictSet_ne _ _ _ _ (by decide), dictGet_dictSet_self]

theorem dictSet4_get_prevention (fs : JObj) (a b c d : JsonValue) :
    dictGet (dictSet (dictSet (dictSet (dictSet fs "error_type" a)
      "root_cause" b) "fix_suggestions" c) "prevention" d) "prevention" = some d := by
  rw [dictGet_dictSet_self]

/-- Shared success-shape lemma for `_validate_schema` on an object holding
all four required keys: validation succeeds, the key sequence is unchanged,
`error_type` holds a string, and the three array fields hold string
arrays. -/
theorem validate_obj_success (fs : JObj)
    (h1 : containsKey fs "error_type" = true)
    (h2 : containsKey fs "root_cause" = true)
    (h3 : containsKey fs "fix_suggestions" = true)
    (h4 : containsKey fs "prevention" = true) :
    validateSchemaRun (.obj fs) = (.obj (validatedObj fs), none) ∧
      keysOf (validatedObj fs) = keysOf fs ∧
      (∃ s, dictGet (validatedObj fs) "error_type" = some (.str s)) ∧
      (∃ l : List String, dictGet (validatedObj fs) "root_cause" = some (.arr (l.map .str))) ∧
      (∃ l : List String, dictGet (validatedObj fs) "fix_suggestions" = some (.arr (l.map .str))) ∧
      (∃ l : List String, dictGet (validatedObj fs) "prevention" = some (.arr (l.map .str))) := by
  have hc := checkRequired_obj_all fs h1 h2 h3 h4
  refine ⟨by simp [validateSchemaRun, hc], ?_, ?_, ?_, ?_, ?_⟩
  · simp only [validatedObj]
    exact keysOf_validatedObj fs _ _ _ _ h1 h2 h3 h4
  · simp only [validatedObj]
    exact ⟨_, dictSet4_get_error_type fs _ _ _ _⟩
  · simp only [validatedObj]
    exact ⟨_, dictSet4_get_root_cause fs _ _ _ _⟩
  · simp only [validatedObj]
    exact ⟨_, dictSet4_get_fix fs _ _ _ _⟩
  · simp only [validatedObj]
    exact ⟨_, dictSet4_get_prevention fs _ _ _ _⟩

theorem containsKey_eq_keys (fs : JObj) (k : String) :
    containsKey fs k = (keysOf fs).contains k := by
  induction fs with
  | nil => simp [containsKey, keysOf]
  | cons p rest ih =>
      obtain ⟨k0, v0⟩ := p
      simp only [containsKey, keysOf, List.map_cons, List.contains_cons]
      by_cases h : k0 = k
      · subst h
        simp
      · have hb : (k == k0) = false := beq_eq_false_iff_ne.mpr (fun e => h e.symm)
        simp [h, hb, ih, keysOf]

theorem checkRequired_obj_none_inv (fs : JObj)
    (hc : checkRequired (.obj fs) requiredKeys = none) :
    containsKey fs "error_type" = true ∧ containsKey fs "root_cause" = true ∧
      containsKey fs "fix_suggestions" = true ∧ containsKey fs "prevention" = true := by
  by_cases b1 : containsKey fs "error_type" <;>
    by_cases b2 : containsKey fs "root_cause" <;>
      by_cases b3 : containsKey fs "fix_suggestions" <;>
        by_cases b4 : containsKey fs "prevention" <;>
          simp_all [requiredKeys, checkRequired, pyContains]

/-- C3: a mapping holding all four required keys always validates, with
`error_type` coerced to a string and the three remaining fields coerced to
lists of strings, whatever the shapes of the four values. -/
theorem c3_validate_total_on_complete_objects (fs : JObj)
    (h1 : containsKey fs "error_type" = true)
    (h2 : containsKey fs "root_cause" = true)
    (h3 : containsKey fs "fix_suggestions" = true)
    (h4 : containsKey fs "prevention" = true) :
    ∃ fs', validateSchemaRun (.obj fs) = (.obj fs', none) ∧
      (∃ s, dictGet fs' "error_type" = some (.str s)) ∧
      (∃ l : List String, dictGet fs' "root_cause" = some (.arr (l.map .str))) ∧
      (∃ l : List String, dictGet fs' "fix_suggestions" = some (.arr (l.map .str))) ∧
      (∃ l : List String, dictGet fs' "prevention" = some (.arr (l.map .str))) := by
  obtain ⟨he, _, hs, hr, hf, hp⟩ := validate_obj_success fs h1 h2 h3 h4
  exact ⟨_, he, hs, hr, hf, hp⟩

/-- Witness for C3 at a mapping whose four values have four different
non-conforming shapes. -/
theorem c3_validate_total_on_complete_objects_witness :
    (containsKey [("error_type", JsonValue.num 5), ("root_cause", JsonValue.str "x"),
        ("fix_suggestions", JsonValue.null), ("prevention", JsonValue.obj [])]
        "error_type" = true) ∧
      (∃ fs', validateSchemaRun (.obj [("error_type", JsonValue.num 5),
          ("root_cause", JsonValue.str "x"), ("fix_suggestions", JsonValue.null),
          ("prevention", JsonValue.obj [])]) = (.obj fs', none) ∧
        (∃ s, dictGet fs' "error_type" = some (.str s)) ∧
        (∃ l : List String, dictGet fs' "root_cause" = some (.arr (l.map .str))) ∧
        (∃ l : List String, dictGet fs' "fix_suggestions" = some (.arr (l.map .str))) ∧
        (∃ l : List String, dictGet fs' "prevention" = some (.arr (l.map .str)))) :=
  ⟨rfl, c3_validate_total_on_complete_objects _ rfl rfl rfl rfl⟩

/-- C4: on a mapping missing at least one required key, `_validate_schema`
raises a `SchemaValidationError` naming exactly the first missing key in
the fixed order error_type, root_cause, fix_suggestions, prevention, and
leaves the mapping unchanged. -/
theorem c4_first_missing_key_named (fs : JObj) (k : String)
    (h : requiredKeys.find? (fun key => !(containsKey fs key)) = some k) :
    validateSchemaRun (.obj fs) = (.obj fs, some (.schemaErr ("Missing field: " ++ k))) := by
  by_cases b1 : containsKey fs "error_type" <;>
    by_cases b2 : containsKey fs "root_cause" <;>
      by_cases b3 : containsKey fs "fix_suggestions" <;>
        by_cases b4 : containsKey fs "prevention" <;>
          simp_all [requiredKeys, List.find?, validateSchemaRun, checkRequired, pyContains]

/-- Witness for C4 at a mapping missing both root_cause and prevention:
root_cause, the first in check order, is the one named. -/
theorem c4_first_missing_key_named_witness :
    (requiredKeys.find? (fun key =>
        !(containsKey [("error_type", JsonValue.null), ("fix_suggestions", JsonValue.null)] key))
      = some "root_cause") ∧
      validateSchemaRun (.obj [("error_type", JsonValue.null), ("fix_suggestions", JsonValue.null)])
        = (.obj [("error_type", JsonValue.null), ("fix_suggestions", JsonValue.null)],
            some (.schemaErr ("Missing field: " ++ "root_cause"))) :=
  ⟨rfl, c4_first_missing_key_named _ _ rfl⟩

/-- Five-key input mapping exercising survival of a non-required key. -/
def c6obj : JObj :=
  [("error_type", JsonValue.str "T"), ("root_cause", JsonValue.null),
   ("fix_suggestions", JsonValue.null), ("prevention", JsonValue.null),
   ("extra", JsonValue.num 1)]

/-- C6 counterexample: a validated mapping may hold keys beyond the four
required ones — an input with a fifth key "extra" passes validation and the
output still holds "extra", so the output does not consist of exactly the
four required keys. -/
theorem c6_counterexample_extra_key_survives :
    (validateSchemaRun (.obj c6obj)).2 = none ∧
      keysOfV (validateSchemaRun (.obj c6obj)).1
      = ["error_type", "root_cause", "fix_suggestions", "prevention", "extra"] :=
  ⟨rfl, rfl⟩

/-- C6 amended: every mapping that has passed `_validate_schema` holds at
least the four required keys, with `error_type` a string and the other
three lists of strings; the key sequence is exactly that of the input, so
any additional input keys survive unchanged in position. -/
theorem c6_amended_validated_shape (fs fs' : JObj)
    (h : validateSchemaRun (.obj fs) = (.obj fs', none)) :
    containsKey fs' "error_type" = true ∧ containsKey fs' "root_cause" = true ∧
      containsKey fs' "fix_suggestions" = true ∧ containsKey fs' "prevention" = true ∧
      keysOf fs' = keysOf fs ∧
      (∃ s, dictGet fs' "error_type" = some (.str s)) ∧
      (∃ l : List String, dictGet fs' "root_cause" = some (.arr (l.map .str))) ∧
      (∃ l : List String, dictGet fs' "fix_suggestions" = some (.arr (l.map .str))) ∧
      (∃ l : List String, dictGet fs' "prevention" = some (.arr (l.map .str))) := by
  cases hc : checkRequired (.obj fs) requiredKeys with
  | some e => simp [validateSchemaRun, hc] at h
  | none =>
      obtain ⟨h1, h2, h3, h4⟩ := checkRequired_obj_none_inv fs hc
      obtain ⟨he, hk, hs, hr, hf, hp⟩ := validate_obj_success fs h1 h2 h3 h4
      rw [he] at h
      have hfst : JsonValue.obj (validatedObj fs) = JsonValue.obj fs' := congrArg Prod.fst h
      injection hfst with h'
      subst h'
      have m1 : containsKey (validatedObj fs) "error_type" = true := by
        rw [containsKey_eq_keys, hk, ← containsKey_eq_keys]; exact h1
      have m2 : containsKey (validatedObj fs) "root_cause" = true := by
        rw [containsKey_eq_keys, hk, ← containsKey_eq_keys]; exact h2
      have m3 : containsKey (validatedObj fs) "fix_suggestions" = true := by
        rw [containsKey_eq_keys, hk, ← containsKey_eq_keys]; exact h3
      have m4 : containsKey (validatedObj fs) "prevention" = true := by
        rw [containsKey_eq_keys, hk, ← containsKey_eq_keys]; exact h4
      exact ⟨m1, m2, m3, m4, hk, hs, hr, hf, hp⟩

/-- Witness for C6's amended statement at a complete five-key mapping. -/
theorem c6_amended_validated_shape_witness :
    (validateSchemaRun (.obj c6obj) = (.obj (validatedObj c6obj), none)) ∧
      keysOf (validatedObj c6obj)
      = ["error_type", "root_cause", "fix_suggestions", "prevention", "extra"] :=
  ⟨rfl, ((c6_amended_validated_shape c6obj (validatedObj c6obj) rfl).2.2.2.2.1).trans rfl⟩

/-- C10: `_validate_schema` is atomic on failure — whenever it raises, the
object component it leaves behind is exactly the input, because all four
presence checks run before any field is reassigned. -/
theorem c10_atomic_on_failure (v : JsonValue) (e : PyExc)
    (h : (validateSchemaRun v).2 = some e) : (validateSchemaRun v).1 = v := by
  cases hc : checkRequired v requiredKeys with
  | some e' => simp [validateSchemaRun, hc]
  | none => cases v <;> simp [validateSchemaRun, hc] at h ⊢

/-- Witness for C10 at the empty mapping, which fails the first presence
check and is returned untouched. -/
theorem c10_atomic_on_failure_witness :
    (validateSchemaRun (.obj [])).2 = some (.schemaErr "Missing field: error_type") ∧
      (validateSchemaRun (.obj [])).1 = .obj [] :=
  ⟨rfl, c10_atomic_on_failure _ (.schemaErr "Missing field: error_type") rfl⟩

/-- String payload of an optional JSON value, empty when not a string. -/
def strOfOpt : Option JsonValue → String
  | some (.str s) => s
  | _ => ""

theorem findSome_str_eq_find (fs : JObj) (ks : List String) :
    (ks.findSome? (fun k => match dictGet fs k with
      | some (.str s) => some s
      | _ => none)) =
    (match ks.find? (fun k => isStrV ((dictGet fs k).getD .null)) with
     | some k => some (strOfOpt (dictGet fs k))
     | none => none) := by
  induction ks with
  | nil => simp
  | cons k ks ih =>
      cases h : dictGet fs k with
      | none => simp [List.findSome?_cons, List.find?_cons, h, isStrV, ih]
      | some v => cases v <;> simp [List.findSome?_cons, List.find?_cons, h, isStrV, strOfOpt, ih]

/-- C5: the full behaviour of `_list_to_str_list`. `None` maps to the empty
list; every non-list value maps to the singleton of its string form; a list
maps element-wise in order, where strings pass through, a mapping yields the
value of the first key among cause, suggestion, advice bound to a string
(else the single-line JSON serialization of the whole mapping), and any
other element yields its string form. The two concrete conjuncts check the
spec scenario shapes. -/
theorem c5_list_to_str_list_behaviour :
    listToStrList JsonValue.null = [] ∧
    (∀ b, listToStrList (.bool b) = [pyStr (.bool b)]) ∧
    (∀ n, listToStrList (.num n) = [pyStr (.num n)]) ∧
    (∀ s, listToStrList (.str s) = [pyStr (.str s)]) ∧
    (∀ fs, listToStrList (.obj fs) = [pyStr (.obj fs)]) ∧
    (∀ xs, listToStrList (.arr xs) = xs.map coerceElem) ∧
    (∀ s, coerceElem (.str s) = s) ∧
    (∀ fs, coerceElem (.obj fs) =
      (match prefKeys.find? (fun k => isStrV ((dictGet fs k).getD .null)) with
       | some k => strOfOpt (dictGet fs k)
       | none => jsonDumps (.obj fs))) ∧
    coerceElem (.obj [("cause", .str "leak")]) = "leak" ∧
    coerceElem (.obj [("other", .num 1)]) = "\x7b\"other\": 1\x7d" ∧
    (∀ b, coerceElem (.bool b) = pyStr (.bool b)) ∧
    (∀ n, coerceElem (.num n) = pyStr (.num n)) ∧
    coerceElem .null = pyStr .null ∧
    (∀ xs, coerceElem (.arr xs) = pyStr (.arr xs)) := by
  refine ⟨rfl, fun b => rfl, fun n => rfl, fun s => rfl, fun fs => rfl,
    fun xs => rfl, fun s => rfl, ?_, rfl, rfl, fun b => rfl, fun n => rfl, rfl, fun xs => rfl⟩
  intro fs
  show (match prefKeys.findSome? (fun k => match dictGet fs k with
      | some (.str s) => some s
      | _ => none) with
    | some s => s
    | none => jsonDumps (.obj fs)) = _
  rw [findSome_str_eq_find]
  cases prefKeys.find? (fun k => isStrV ((dictGet fs k).getD .null)) <;> simp

/-- C9 evidence: `run_debug` cannot build the diagnosis prompt from its
request. The name it imports from `app/prompt.py` is not defined there; no
attribute it reads off the request is a declared `DebugRequest` field; and
the diagnosis template's `raw_input` placeholder is not among the keyword
arguments `run_debug` supplies (while the declared optional field
`similar_bugs` is hardwired rather than substituted from the request). -/
theorem c9_run_debug_broken_bindings :
    ¬ (debugServicePromptImport ∈ promptModuleNames) ∧
      runDebugAccessedAttrs.all (fun a => !(debugRequestFields.contains a)) = true ∧
      ("raw_input" ∈ debugTemplatePlaceholders) ∧
      ¬ ("raw_input" ∈ runDebugFormatKwargs) := by
  decide

/-- C8 counterexample: with the import-time environment selecting chat mode
and a call-time environment selecting generate mode with its own model,
base URL, and timeout, the outbound request still takes the chat path with
the import-time model, base URL, and timeout — the call does not reflect
the environment in effect at call time. -/
theorem c8_counterexample_config_cached_at_import :
    (callCfg [("OLLAMA_MODE", "generate"), ("OLLAMA_MODEL", "m2"),
        ("OLLAMA_BASE_URL", "http://b:2"), ("OLLAMA_TIMEOUT", "2")]).mode = "generate" ∧
      getenvD [("OLLAMA_MODE", "generate"), ("OLLAMA_MODEL", "m2"),
        ("OLLAMA_BASE_URL", "http://b:2"), ("OLLAMA_TIMEOUT", "2")] "OLLAMA_MODEL" "" = "m2" ∧
      outboundRequest
        [("OLLAMA_MODE", "chat"), ("OLLAMA_MODEL", "m1"),
         ("OLLAMA_BASE_URL", "http://a:1"), ("OLLAMA_TIMEOUT", "1")]
        [("OLLAMA_MODE", "generate"), ("OLLAMA_MODEL", "m2"),
         ("OLLAMA_BASE_URL", "http://b:2"), ("OLLAMA_TIMEOUT", "2")] "p"
      = { url := "http://a:1/api/chat", model := "m1", timeoutRaw := "1",
          isGenerateMode := false, prompt := "p" } := by
  decide

/-- C8 amended: the wire mode, model field, and timeout of every outbound
request are the module-import-time environment values; only the generate
branch's base URL is read from the environment at call time, the chat
branch's base URL again being the import-time value. -/
theorem c8_amended_import_time_config (se ce : EnvMap) (p : String) :
    (outboundRequest se ce p).model = (startupCfg se).model ∧
      (outboundRequest se ce p).timeoutRaw = (startupCfg se).timeoutRaw ∧
      ((startupCfg se).mode = "generate" →
        (outboundRequest se ce p).isGenerateMode = true ∧
          (outboundRequest se ce p).url = (callCfg ce).base ++ "/api/generate") ∧
      ((startupCfg se).mode ≠ "generate" →
        (outboundRequest se ce p).isGenerateMode = false ∧
          (outboundRequest se ce p).url = (startupCfg se).base ++ "/api/chat") := by
  by_cases h : (startupCfg se).mode = "generate" <;> simp [outboundRequest, h]

/-- Witness for C8's amended statement: import-time generate mode sends the
request to the call-time base URL's generate path. -/
theorem c8_amended_import_time_config_witness :
    (outboundRequest [("OLLAMA_MODE", "generate")] [("OLLAMA_BASE_URL", "http://b:2")] "p").url
      = "http://b:2/api/generate" := by
  have h := c8_amended_import_time_config
    [("OLLAMA_MODE", "generate")] [("OLLAMA_BASE_URL", "http://b:2")] "p"
  exact ((h.2.2.1 rfl).2).trans rfl

/-- C2: a failing gateway call is never retried — a response status of 400
or above makes `call_ollama` raise, and a gateway error on the first call
makes `_run_llm` return that gateway error after exactly one call, with no
second invocation. -/
theorem c2_gateway_error_no_retry (se : EnvMap) (resp : HttpResponse)
    (gw : Nat → Except String String) (prompt msg : String)
    (hs : 400 ≤ resp.status) (hg : gw 0 = .error msg) :
    (∃ m, callOllamaResult se resp = .error m) ∧
      runLLM gw prompt = ([prompt], .error (.gateway msg)) := by
  constructor
  · by_cases h : (startupCfg se).mode = "generate"
    · refine ⟨"Ollama generate failed: " ++ toString resp.status ++ " " ++ resp.text, ?_⟩
      simp [callOllamaResult, h, hs]
    · refine ⟨"Ollama chat failed: " ++ toString resp.status ++ " " ++ resp.text, ?_⟩
      simp [callOllamaResult, h, hs]
  · simp [runLLM, hg]

/-- Gateway oracle for the C2 witness: the endpoint fails immediately. -/
def c2gw : Nat → Except String String :=
  fun _ => .error "Ollama chat failed: 500 boom"

/-- Witness for C2 at a concrete 500 response: one prompt sent, gateway
error surfaced. -/
theorem c2_gateway_error_no_retry_witness :
    (∃ m, callOllamaResult [] ⟨500, "boom", .null⟩ = .error m) ∧
      runLLM c2gw "p" = (["p"], .error (.gateway "Ollama chat failed: 500 boom")) :=
  c2_gateway_error_no_retry [] ⟨500, "boom", .null⟩ c2gw "p"
    "Ollama chat failed: 500 boom" (by decide) rfl

/-- C1: when the first response fails JSON parsing or schema validation,
`_run_llm` issues exactly one further gateway call carrying the original
prompt with the fixed corrective instruction appended; a successful retry
returns the retry's structured result paired with the retry's raw text,
and any failure of the retry (gateway or parse/schema) propagates with no
third call. -/
theorem c1_retry_once_on_parse_failure (gw : Nat → Except String String)
    (prompt raw1 : String) (e1 : ParseFail)
    (h0 : gw 0 = .ok raw1) (h1 : parseModelOutput raw1 = .error e1)
    (h2 : e1 = .jsonErr ∨ ∃ m, e1 = .schemaMsg m) :
    (runLLM gw prompt).1 = [prompt, prompt ++ retryInstr] ∧
      (∀ raw2 obj2, gw 1 = .ok raw2 → parseModelOutput raw2 = .ok obj2 →
        (runLLM gw prompt).2 = .ok (obj2, raw2)) ∧
      (∀ m, gw 1 = .error m → (runLLM gw prompt).2 = .error (.gateway m)) ∧
      (∀ raw2 e2, gw 1 = .ok raw2 → parseModelOutput raw2 = .error e2 →
        (runLLM gw prompt).2 = .error (.parse e2)) := by
  have key : runLLM gw prompt = ([prompt, prompt ++ retryInstr],
      match gw 1 with
      | .error e => .error (.gateway e)
      | .ok rawRetry =>
          match parseModelOutput rawRetry with
          | .ok objRetry => .ok (objRetry, rawRetry)
          | .error e2 => .error (.parse e2)) := by
    rcases h2 with h2 | ⟨m, h2⟩ <;> subst h2 <;> simp only [runLLM, h0, h1] <;>
      (cases hg : gw 1 with
       | error e => simp
       | ok r => cases hp : parseModelOutput r <;> simp [hp])
  refine ⟨by rw [key], ?_, ?_, ?_⟩
  · intro raw2 obj2 hg hp
    rw [key]
    simp [hg, hp]
  · intro m hg
    rw [key]
    simp [hg]
  · intro raw2 e2 hg hp
    rw [key]
    simp [hg, hp]

/-- The schema-conformant retry response used by the C1 witness. -/
def c1json : String :=
  "\x7b\"error_type\": \"X\", \"root_cause\": [\"a\"], \"fix_suggestions\": [], \"prevention\": null\x7d"

/-- Gateway oracle for the C1 witness: non-JSON prose first, then valid
JSON. -/
def c1gw : Nat → Except String String :=
  fun n => if n = 0 then .ok "sorry I cannot help" else .ok c1json

/-- Witness for C1 at the spec's own scenario: the first response is the
prose "sorry I cannot help", the retry succeeds, and the returned pair is
the retry's structured result and the retry's raw text. -/
theorem c1_retry_once_on_parse_failure_witness :
    parseModelOutput "sorry I cannot help" = .error .jsonErr ∧
      (runLLM c1gw "p").1 = ["p", "p" ++ retryInstr] ∧
      (runLLM c1gw "p").2 = .ok (.obj [("error_type", .str "X"),
        ("root_cause", .arr [.str "a"]), ("fix_suggestions", .arr []),
        ("prevention", .arr [])], c1json) := by
  have h := c1_retry_once_on_parse_failure c1gw "p" "sorry I cannot help" .jsonErr
    rfl rfl (Or.inl rfl)
  exact ⟨rfl, h.1, h.2.1 c1json _ rfl rfl⟩

/-- Fence wrapping of a text: opening fence with an optional tag, a newline,
the text, a newline, and the closing fence. -/
def fenceWrap (tag s : List Char) : List Char :=
  fenceChars ++ tag ++ [nlChar] ++ s ++ [nlChar] ++ fenceChars

theorem dropWhile_head_false {α : Type} (p : α → Bool) :
    ∀ (l : List α) (c : α) (rest : List α), l.dropWhile p = c :: rest → p c = false := by
  intro l
  induction l with
  | nil => intro c rest h; simp at h
  | cons a t ih =>
      intro c rest h
      by_cases hp : p a
      · rw [List.dropWhile_cons_of_pos hp] at h
        exact ih c rest h
      · rw [List.dropWhile_cons_of_neg hp] at h
        cases h
        simpa using hp

theorem dropWhile_idem {α : Type} (p : α → Bool) (l : List α) :
    (l.dropWhile p).dropWhile p = l.dropWhile p := by
  cases h : l.dropWhile p with
  | nil => simp
  | cons c rest =>
      have := dropWhile_head_false p l c rest h
      rw [List.dropWhile_cons_of_neg (by simp [this])]

theorem dropTrail_append_eq (p : Char → Bool) (l : List Char) :
    dropTrail p l ++ (l.reverse.takeWhile p).reverse = l := by
  have h := congrArg List.reverse (List.takeWhile_append_dropWhile p l.reverse)
  rw [List.reverse_append, List.reverse_reverse] at h
  exact h

theorem dropWhile_dropTrail (p : Char → Bool) (l : List Char)
    (h : l.dropWhile p = l) : (dropTrail p l).dropWhile p = dropTrail p l := by
  cases hd : dropTrail p l with
  | nil => simp
  | cons c rest =>
      have hsplit0 := dropTrail_append_eq p l
      rw [hd] at hsplit0
      obtain ⟨j, hsplit⟩ : ∃ j, (c :: rest) ++ j = l := ⟨_, hsplit0⟩
      have hdw : l.dropWhile p = c :: (rest ++ j) := by
        rw [h, ← hsplit, List.cons_append]
      have hc := dropWhile_head_false p l c _ hdw
      rw [List.dropWhile_cons_of_neg (by simp [hc])]

theorem dropTrail_idem (p : Char → Bool) (l : List Char) :
    dropTrail p (dropTrail p l) = dropTrail p l := by
  unfold dropTrail
  rw [List.reverse_reverse, dropWhile_idem]

theorem pyStrip_dropTrail_of_stripped (l : List Char)
    (h : l.dropWhile pyIsSpace = l) :
    pyStrip (dropTrail pyIsSpace l) = dropTrail pyIsSpace l := by
  unfold pyStrip
  rw [dropWhile_dropTrail pyIsSpace l h, dropTrail_idem]

theorem pyStrip_fenceWrap (tag s : List Char) :
    pyStrip (fenceWrap tag s) = fenceWrap tag s := by
  unfold pyStrip
  obtain ⟨rest, hr⟩ : ∃ rest, fenceWrap tag s = btChar :: rest := ⟨_, rfl⟩
  have hlead : (fenceWrap tag s).dropWhile pyIsSpace = fenceWrap tag s := by
    rw [hr, List.dropWhile_cons_of_neg (by decide)]
  rw [hlead]
  have hrev : (fenceWrap tag s).reverse
      = btChar :: btChar :: btChar :: ((fenceChars ++ tag ++ [nlChar] ++ s ++ [nlChar]).reverse) := by
    rw [show fenceWrap tag s
        = (fenceChars ++ tag ++ [nlChar] ++ s ++ [nlChar]) ++ fenceChars from rfl,
      List.reverse_append]
    rfl
  unfold dropTrail
  rw [hrev, List.dropWhile_cons_of_neg (by decide), ← hrev, List.reverse_reverse]

theorem stripLeadFence_fenceWrap (tag s : List Char)
    (htag : tag = [] ∨ (tag.length = 4 ∧ tag.map Char.toLower = ['j', 's', 'o', 'n'])) :
    stripLeadFence (fenceWrap tag s) = (s ++ [nlChar] ++ fenceChars).dropWhile pyIsSpace := by
  have hW : fenceWrap tag s
      = fenceChars ++ (tag ++ ([nlChar] ++ (s ++ ([nlChar] ++ fenceChars)))) := by
    simp [fenceWrap, List.append_assoc]
  have h3 : (fenceWrap tag s).take 3 = fenceChars := by
    rw [hW]
    exact List.take_left' (by rfl)
  have h4 : (fenceWrap tag s).drop 3
      = tag ++ ([nlChar] ++ (s ++ ([nlChar] ++ fenceChars))) := by
    rw [hW]
    exact List.drop_left' (by rfl)
  unfold stripLeadFence
  rw [if_pos h3, h4]
  rcases htag with rfl | ⟨hlen, hmap⟩
  · rw [List.nil_append,
      show [nlChar] ++ (s ++ ([nlChar] ++ fenceChars))
        = nlChar :: (s ++ ([nlChar] ++ fenceChars)) from rfl]
    rw [if_neg ?hneg]
    case hneg =>
      intro hcon
      rw [show (nlChar :: (s ++ ([nlChar] ++ fenceChars))).take 4
          = nlChar :: (s ++ ([nlChar] ++ fenceChars)).take 3 from rfl,
        List.map_cons] at hcon
      injection hcon with h1 _
      exact absurd h1 (by decide)
    rw [List.dropWhile_cons_of_pos (by decide), List.append_assoc]
  · have htake : (tag ++ ([nlChar] ++ (s ++ ([nlChar] ++ fenceChars)))).take 4 = tag :=
      List.take_left' hlen
    have hdrop : (tag ++ ([nlChar] ++ (s ++ ([nlChar] ++ fenceChars)))).drop 4
        = [nlChar] ++ (s ++ ([nlChar] ++ fenceChars)) :=
      List.drop_left' hlen
    rw [htake, hmap, if_pos rfl, hdrop,
      show [nlChar] ++ (s ++ ([nlChar] ++ fenceChars))
        = nlChar :: (s ++ ([nlChar] ++ fenceChars)) from rfl,
      List.dropWhile_cons_of_pos (by decide), List.append_assoc]

/-- C7 amended: stripping the fences off a fence-wrapped text returns the
text stripped of its surrounding whitespace (so it is byte-identical to
the original exactly when that original has no leading or trailing
whitespace); the tag may be absent or any letter-case variant of json. -/
theorem c7_amended_fence_strip_roundtrip (s tag : List Char)
    (htag : tag = [] ∨ (tag.length = 4 ∧ tag.map Char.toLower = ['j', 's', 'o', 'n'])) :
    stripCodeFences (fenceWrap tag s) = pyStrip s := by
  unfold stripCodeFences
  rw [pyStrip_fenceWrap, stripLeadFence_fenceWrap tag s htag, List.append_assoc,
    List.dropWhile_append]
  cases hs : s.dropWhile pyIsSpace with
  | nil =>
      rw [if_pos (by rfl)]
      rw [show ([nlChar] ++ fenceChars).dropWhile pyIsSpace = fenceChars from rfl,
        show stripTrailFence fenceChars = [] from rfl,
        show pyStrip ([] : List Char) = [] from rfl]
      unfold pyStrip
      rw [hs]
      rfl
  | cons c rest =>
      rw [if_neg (by simp)]
      have hrev : ((c :: rest) ++ ([nlChar] ++ fenceChars)).reverse
          = btChar :: btChar :: btChar :: nlChar :: (c :: rest).reverse := by
        rw [List.reverse_append]
        rfl
      unfold stripTrailFence
      rw [hrev, if_pos (show List.take 3
          (btChar :: btChar :: btChar :: nlChar :: (c :: rest).reverse) = fenceChars from rfl),
        show (btChar :: btChar :: btChar :: nlChar :: (c :: rest).reverse).drop 3
          = nlChar :: (c :: rest).reverse from rfl,
        List.dropWhile_cons_of_pos (by decide)]
      have hcr : (c :: rest).dropWhile pyIsSpace = c :: rest := by
        have h := dropWhile_idem pyIsSpace s
        rw [hs] at h
        exact h
      have hps := pyStrip_dropTrail_of_stripped (c :: rest) hcr
      show pyStrip (dropTrail pyIsSpace (c :: rest)) = pyStrip s
      rw [hps]
      unfold pyStrip
      rw [hs]

/-- C7 counterexample: wrapping the three-character text consisting of a
space, x, and a space in a json-tagged fence and stripping does not give
back the text — the surrounding whitespace is lost and only x remains. -/
theorem c7_counterexample_whitespace_not_identity :
    stripCodeFences (fenceWrap ['j', 's', 'o', 'n'] [' ', 'x', ' ']) = ['x'] ∧
      ¬ (stripCodeFences (fenceWrap ['j', 's', 'o', 'n'] [' ', 'x', ' '])
          = [' ', 'x', ' ']) := by
  decide

/-- Witness for C7's amended statement: an uppercase-tagged fence around a
whitespace-free text gives back the text itself. -/
theorem c7_amended_fence_strip_roundtrip_witness :
    (['J', 'S', 'O', 'N'].map Char.toLower = ['j', 's', 'o', 'n']) ∧
      stripCodeFences (fenceWrap ['J', 'S', 'O', 'N'] "hello".data) = "hello".data := by
  refine ⟨by decide, ?_⟩
  have h := c7_amended_fence_strip_roundtrip "hello".data ['J', 'S', 'O', 'N']
    (Or.inr ⟨by decide, by decide⟩)
  exact h.trans (by decide)
